import Mathlib

/-!
Verification development for the `DataTransformer` pipeline of
`presto-query-predictor` (`query_predictor/predictor/data_transformer.py`).

The tabular dataset (a pandas `DataFrame` in the source) is embedded as a
`Frame`: an ordered list of column labels together with a list of rows, each
row a list of cell values positionally aligned with the column list.  A pandas
column key is either a plain string label or — relevant to
`select_training_columns`, which indexes the frame with the tuple
`(QUERY_COLUMN, CPU_TIME_LABEL, PEAK_MEMORY_LABEL)` — a triple of strings used
as a single label; `ColLabel` covers both shapes.

The two label creators (`CPUTimeLabelCreator`, `PeakMemoryLabelCreator`) are
external collaborators of this component; they are embedded as parameters of
type `Gen` (a function from a full row, as label/value pairs, to one value),
exactly the row-to-label contract the pipeline consumes.
-/

/-- A cell value: a string, an integer metric, or pandas' missing value NaN.
(Floating-point NaN is modelled as an opaque distinguished value; no claim
computes with numerics.) -/
inductive Val where
  | str (s : String)
  | num (n : Int)
  | nan
deriving DecidableEq, Repr

/-- A pandas column key: a plain string label, or a 3-tuple of strings used as
a single label (as in `df[a, b, c]`, which pandas reads as `df[(a, b, c)]`). -/
inductive ColLabel where
  | s (name : String)
  | t3 (a b c : String)
deriving DecidableEq, Repr

/-- The dataset: ordered column labels and rows of cells, positionally aligned
with the columns. -/
structure Frame where
  cols : List ColLabel
  rows : List (List Val)
deriving DecidableEq, Repr

/-- Modelled from the spec: `constant.py` is not under `src/`; the spec names
the column roles (query text, query state, CPU-time label, peak-memory label).
The concrete strings are immaterial to every claim; they are chosen distinct. -/
def QUERY_COLUMN : String := "query"

/-- Modelled from the spec: the query-state (status) column name. -/
def QUERY_STATE_COLUMN : String := "query_state"

/-- Modelled from the spec: the categorical CPU-time label column name. -/
def CPU_TIME_LABEL : String := "cpu_time_label"

/-- Modelled from the spec: the categorical peak-memory label column name. -/
def PEAK_MEMORY_LABEL : String := "peak_memory_label"

/-- Index of the first column with the given label (pandas label lookup). -/
def colIdx (c : ColLabel) : List ColLabel → Option Nat
  | [] => none
  | c' :: cs => if c' = c then some 0 else (colIdx c cs).map (· + 1)

/-- One full row presented to a label generator: label/value pairs
(`df.apply(..., axis=1)` passes the whole row). -/
abbrev Row := List (ColLabel × Val)

/-- The row-to-label contract of the external label creators (§4.3/§4.4):
one categorical value per full row. -/
abbrev Gen := Row → Val

/-- Errors surfaced by the pipeline: the component's own
`DataTransformerException` (carrying the offending step name), pandas'
`KeyError` for a missing column label, and the Python-level `TypeError` /
`ValueError` / `RecursionError` reachable through the dispatcher. -/
inductive Err where
  | dataTransformerException (name : String)
  | keyError (key : ColLabel)
  | typeError
  | valueError
  | recursionError
deriving DecidableEq, Repr

/-- ASCII lowercasing of one character, the effect of Python's `str.lower`
on the ASCII range (query text in this dataset is SQL). -/
def lowerChar (c : Char) : Char :=
  match c with
  | 'A' => 'a' | 'B' => 'b' | 'C' => 'c' | 'D' => 'd' | 'E' => 'e'
  | 'F' => 'f' | 'G' => 'g' | 'H' => 'h' | 'I' => 'i' | 'J' => 'j'
  | 'K' => 'k' | 'L' => 'l' | 'M' => 'm' | 'N' => 'n' | 'O' => 'o'
  | 'P' => 'p' | 'Q' => 'q' | 'R' => 'r' | 'S' => 's' | 'T' => 't'
  | 'U' => 'u' | 'V' => 'v' | 'W' => 'w' | 'X' => 'x' | 'Y' => 'y'
  | 'Z' => 'z'
  | c => c

/-- Lowercase a whole string character-wise. -/
def lowerString (s : String) : String := ⟨s.data.map lowerChar⟩

/-- Cell-wise `Series.str.lower`: lowercases strings; any non-string cell
(numeric or NaN) becomes NaN, as pandas' `.str` accessor does. -/
def strLower : Val → Val
  | .str s => .str (lowerString s)
  | _ => .nan

/-- Source method `DataTransformer.drop_failed_queries`:
if the query-state column is present, keep only the rows whose state cell
equals `"FINISHED"` (a boolean-mask filter, preserving row order and all
columns); if the column is absent the frame is returned unchanged. -/
def drop_failed_queries (fr : Frame) : Frame :=
  match colIdx (ColLabel.s QUERY_STATE_COLUMN) fr.cols with
  | none => fr
  | some i =>
    { fr with
      rows := fr.rows.filter (fun r => decide (r.getD i Val.nan = Val.str "FINISHED")) }

/-- Source method `DataTransformer.to_lower_queries`:
reads the query-text column (raising `KeyError` if absent, before any
assignment happens) and writes back its cell-wise lowercased form. -/
def to_lower_queries (fr : Frame) : Except Err Frame :=
  match colIdx (ColLabel.s QUERY_COLUMN) fr.cols with
  | none => .error (.keyError (.s QUERY_COLUMN))
  | some i =>
    .ok { fr with
          rows := fr.rows.map (fun r => r.set i (strLower (r.getD i Val.nan))) }

/-- Column assignment, `df[c] = vals`: overwrite in place if the label exists,
otherwise append the new column at the end (pandas semantics). -/
def setCol (fr : Frame) (c : ColLabel) (vals : List Val) : Frame :=
  match colIdx c fr.cols with
  | some i =>
    { fr with rows := List.zipWith (fun r v => r.set i v) fr.rows vals }
  | none =>
    { cols := fr.cols ++ [c],
      rows := List.zipWith (fun r v => r ++ [v]) fr.rows vals }

/-- Row-wise application `df.apply(g, axis=1)`: the generator applied to each full row. -/
def applyRows (g : Gen) (fr : Frame) : List Val :=
  fr.rows.map (fun r => g (fr.cols.zip r))

/-- Source method `DataTransformer.create_cpu_time_label`: assigns the per-row output of the
CPU-time label creator into the CPU-time label column. -/
def create_cpu_time_label (gc : Gen) (fr : Frame) : Frame :=
  setCol fr (ColLabel.s CPU_TIME_LABEL) (applyRows gc fr)

/-- Source method `DataTransformer.create_peak_memory_label`: assigns the per-row output of
the peak-memory label creator into the peak-memory label column. -/
def create_peak_memory_label (gm : Gen) (fr : Frame) : Frame :=
  setCol fr (ColLabel.s PEAK_MEMORY_LABEL) (applyRows gm fr)

/-- Source method `DataTransformer.create_labels`: the CPU-time label step followed by the
peak-memory label step (the second sees the frame already carrying the first
new column). -/
def create_labels (gc gm : Gen) (fr : Frame) : Frame :=
  create_peak_memory_label gm (create_cpu_time_label gc fr)

/-- Source method `DataTransformer.select_training_columns`:
the source indexes the frame as
`self.data_frame[QUERY_COLUMN, CPU_TIME_LABEL, PEAK_MEMORY_LABEL]`, i.e. with
the single tuple key `(QUERY_COLUMN, CPU_TIME_LABEL, PEAK_MEMORY_LABEL)`
(brackets are missing in the source); pandas looks that tuple up as one column
label, yielding that single column when such a label exists and `KeyError`
otherwise — never a three-column selection. -/
def select_training_columns (fr : Frame) : Except Err Frame :=
  let key : ColLabel := .t3 QUERY_COLUMN CPU_TIME_LABEL PEAK_MEMORY_LABEL
  match colIdx key fr.cols with
  | some i => .ok { cols := [key], rows := fr.rows.map (fun r => [r.getD i Val.nan]) }
  | none => .error (.keyError key)

/-- The `DataTransformer` instance: its three instance attributes, as set by
`__init__` — the held frame, the built-in step names, the custom functions.
(Custom functions are embedded as total frame transformations.) -/
structure Pipeline where
  data_frame : Frame
  func_strs : List String
  funcs : List (Frame → Frame)

/-- The six data-frame methods of the class other than `transform` itself. -/
inductive Method where
  | create_labels
  | create_cpu_time_label
  | create_peak_memory_label
  | drop_failed_queries
  | to_lower_queries
  | select_training_columns
deriving DecidableEq, Repr

/-- An attribute value of a `DataTransformer` instance, as seen by
`getattr(self, func_str, None)`: a bound data-frame method, the bound
`transform` method itself, or one of the three instance attributes. -/
inductive Attr where
  | plainMethod (m : Method)
  | transformMethod
  | dataFrameAttr
  | funcStrsAttr
  | funcsAttr
deriving DecidableEq, Repr

/-- Attribute lookup `getattr(self, s, None)` on a `DataTransformer` instance: the instance
attributes set by `__init__` plus the methods defined on the class.  (Dunder
attributes inherited from `object` are not modelled; no claim mentions them.) -/
def getattrP (s : String) : Option Attr :=
  if s = "transform" then some .transformMethod
  else if s = "create_labels" then some (.plainMethod .create_labels)
  else if s = "create_cpu_time_label" then some (.plainMethod .create_cpu_time_label)
  else if s = "create_peak_memory_label" then some (.plainMethod .create_peak_memory_label)
  else if s = "drop_failed_queries" then some (.plainMethod .drop_failed_queries)
  else if s = "to_lower_queries" then some (.plainMethod .to_lower_queries)
  else if s = "select_training_columns" then some (.plainMethod .select_training_columns)
  else if s = "data_frame" then some .dataFrameAttr
  else if s = "func_strs" then some .funcStrsAttr
  else if s = "funcs" then some .funcsAttr
  else none

/-- Python truthiness of an attribute value, as tested by `if transformer:`.
Bound methods are truthy; a sequence is truthy iff non-empty; asking for the
truth value of a pandas `DataFrame` raises `ValueError` ("ambiguous"). -/
def truthyE (p : Pipeline) : Attr → Except Err Bool
  | .plainMethod _ => .ok true
  | .transformMethod => .ok true
  | .dataFrameAttr => .error .valueError
  | .funcStrsAttr => .ok (!p.func_strs.isEmpty)
  | .funcsAttr => .ok (!p.funcs.isEmpty)

/-- Invoking one of the six plain data-frame methods on the held frame.
Each method reassigns `self.data_frame` and returns it; the source's
`transformer()` call discards the return value, so the new held frame is the
whole effect. -/
def runPlainMethod (gc gm : Gen) : Method → Frame → Except Err Frame
  | .create_labels, fr => .ok (create_labels gc gm fr)
  | .create_cpu_time_label, fr => .ok (create_cpu_time_label gc fr)
  | .create_peak_memory_label, fr => .ok (create_peak_memory_label gm fr)
  | .drop_failed_queries, fr => .ok (drop_failed_queries fr)
  | .to_lower_queries, fr => to_lower_queries fr
  | .select_training_columns, fr => select_training_columns fr

/-- The `self.funcs` phase of `transform`: `self.data_frame = func(self.data_frame)`
for each custom function, in order. -/
def runFuncs (funcs : List (Frame → Frame)) (fr : Frame) : Frame :=
  funcs.foldl (fun acc f => f acc) fr

/-- Invocation `transformer()`: calling a resolved, truthy attribute.  A failing method
raises, leaving the held frame as it was when the call began (every method
either reassigns `self.data_frame` after its right-hand side succeeded, or
raises while evaluating that right-hand side); errors therefore carry the held
frame.  Calling `transform` re-enters the dispatcher (`rec`); calling a
non-callable attribute raises `TypeError`. -/
def callAttr (gc gm : Gen) (rec : Frame → Except (Err × Frame) Frame) :
    Attr → Frame → Except (Err × Frame) Frame
  | .plainMethod m, fr =>
    match runPlainMethod gc gm m fr with
    | .error e => .error (e, fr)
    | .ok fr' => .ok fr'
  | .transformMethod, fr => rec fr
  | .dataFrameAttr, fr => .error (.typeError, fr)
  | .funcStrsAttr, fr => .error (.typeError, fr)
  | .funcsAttr, fr => .error (.typeError, fr)

/-- The `for func_str in self.func_strs` loop of `transform`: resolve each name
with `getattr(self, func_str, None)`; a truthy result is called, anything else
raises `DataTransformerException` naming the step.  `rec` is the semantics of
a nested `self.transform()` call.  Errors short-circuit the loop and carry the
held frame at the moment of the raise. -/
def runSteps (gc gm : Gen) (p : Pipeline) (rec : Frame → Except (Err × Frame) Frame) :
    List String → Frame → Except (Err × Frame) Frame
  | [], fr => .ok fr
  | s :: rest, fr =>
    match getattrP s with
    | none => .error (.dataTransformerException s, fr)
    | some a =>
      match truthyE p a with
      | .error e => .error (e, fr)
      | .ok false => .error (.dataTransformerException s, fr)
      | .ok true =>
        match callAttr gc gm rec a fr with
        | .error ef => .error ef
        | .ok fr' => runSteps gc gm p rec rest fr'

/-- Source method `DataTransformer.transform` with an explicit recursion bound: the built-in
step loop over `self.func_strs`, then the custom-function loop, returning the
final held frame.  The bound only limits nested `self.transform()` calls (the
step name `"transform"` resolves to the method itself); exhausting it is
Python's `RecursionError`. -/
def transformFuel (gc gm : Gen) (p : Pipeline) : Nat → Frame → Except (Err × Frame) Frame
  | 0, fr => .error (.recursionError, fr)
  | fuel + 1, fr =>
    match runSteps gc gm p (transformFuel gc gm p fuel) p.func_strs fr with
    | .error ef => .error ef
    | .ok fr' => .ok (runFuncs p.funcs fr')

/-- The built-in step loop at recursion depth `fuel`, as a standalone function
(used to speak about prefixes of the configured steps). -/
def stepsFrom (gc gm : Gen) (p : Pipeline) (fuel : Nat) :
    List String → Frame → Except (Err × Frame) Frame :=
  runSteps gc gm p (transformFuel gc gm p fuel)

/-- Entry point `DataTransformer.transform()` on a pipeline instance, allowing `fuel`
nested `self.transform()` re-entries: a successful run returns the final
frame; a raise carries the error and the held frame at that moment. -/
def DataTransformer.transform (gc gm : Gen) (fuel : Nat) (p : Pipeline) :
    Except (Err × Frame) Frame :=
  transformFuel gc gm p (fuel + 1) p.data_frame

/-- A constant label generator, used to instantiate concrete runs. -/
def constGen : Gen := fun _ => Val.str "low"

/-- A 5-row query log: rows 0, 2, 4 have state `"FINISHED"` and non-empty SQL
text, rows 1 and 3 have state `"FAILED"`; a third column is along for the ride. -/
def sampleLogs : Frame :=
  { cols := [ColLabel.s QUERY_STATE_COLUMN, ColLabel.s QUERY_COLUMN, ColLabel.s "user"],
    rows := [
      [Val.str "FINISHED", Val.str "SELECT 1", Val.str "u1"],
      [Val.str "FAILED", Val.str "SELECT 2", Val.str "u2"],
      [Val.str "FINISHED", Val.str "Select Name FROM T", Val.str "u3"],
      [Val.str "FAILED", Val.str "SELECT 4", Val.str "u4"],
      [Val.str "FINISHED", Val.str "SELECT X", Val.str "u5"]] }

/-- The three `"FINISHED"` rows of `sampleLogs`, in their original order, with
the query text lowercased and every other cell untouched. -/
def sampleLogsExpected : Frame :=
  { cols := [ColLabel.s QUERY_STATE_COLUMN, ColLabel.s QUERY_COLUMN, ColLabel.s "user"],
    rows := [
      [Val.str "FINISHED", Val.str "select 1", Val.str "u1"],
      [Val.str "FINISHED", Val.str "select name from t", Val.str "u3"],
      [Val.str "FINISHED", Val.str "select x", Val.str "u5"]] }

/-- A one-column, one-row frame holding only query text. -/
def queryOnlyFrame : Frame :=
  { cols := [ColLabel.s QUERY_COLUMN], rows := [[Val.str "SELECT A"]] }

/-- A frame with a query-state column but no query-text column. -/
def noQueryTextFrame : Frame :=
  { cols := [ColLabel.s QUERY_STATE_COLUMN],
    rows := [[Val.str "FINISHED"], [Val.str "FAILED"]] }

/-- The frame `noQueryTextFrame` after `drop_failed_queries`. -/
def noQueryTextFinished : Frame :=
  { cols := [ColLabel.s QUERY_STATE_COLUMN], rows := [[Val.str "FINISHED"]] }

/-- The pipeline instance used to witness the custom-function phase. -/
def funcsPipeline : Pipeline :=
  { data_frame := queryOnlyFrame, func_strs := ["to_lower_queries"],
    funcs := [drop_failed_queries, drop_failed_queries] }

/-- The frame produced by `funcsPipeline`'s built-in phase. -/
def funcsPipelineMid : Frame :=
  { cols := [ColLabel.s QUERY_COLUMN], rows := [[Val.str "select a"]] }

/-- The pipeline instance used to witness the unresolvable-name abort. -/
def bogusPipeline : Pipeline :=
  { data_frame := noQueryTextFrame, func_strs := ["bogus"], funcs := [] }

/-- The pipeline instance used to witness the no-rollback behavior: the first
step succeeds, the second raises `KeyError` (no query-text column). -/
def noRollbackPipeline : Pipeline :=
  { data_frame := noQueryTextFrame,
    func_strs := ["drop_failed_queries", "to_lower_queries"], funcs := [] }

/-- A step name fails resolution in the dispatcher when `getattr` finds no
attribute or the attribute found is falsy — exactly the condition under which
`transform` raises `DataTransformerException` for that name. -/
def unresolvable (p : Pipeline) (s : String) : Prop :=
  getattrP s = none ∨ ∃ a, getattrP s = some a ∧ truthyE p a = Except.ok false

/-- The 26 lowercase ASCII letters, the range of `lowerChar` off the identity. -/
def lcLetters : List Char :=
  ['a', 'b', 'c', 'd', 'e', 'f', 'g', 'h', 'i', 'j', 'k', 'l', 'm',
   'n', 'o', 'p', 'q', 'r', 's', 't', 'u', 'v', 'w', 'x', 'y', 'z']

theorem lowerChar_cases (c : Char) : lowerChar c = c ∨ lowerChar c ∈ lcLetters := by
  unfold lowerChar
  split
  all_goals first
    | (right; decide)
    | (left; rfl)

theorem lowerChar_idem (c : Char) : lowerChar (lowerChar c) = lowerChar c := by
  have aux : ∀ x ∈ lcLetters, lowerChar x = x := by decide
  rcases lowerChar_cases c with h | h
  · rw [h]
    exact h
  · exact aux _ h

theorem lowerString_idem (s : String) : lowerString (lowerString s) = lowerString s := by
  unfold lowerString
  have h : lowerChar ∘ lowerChar = lowerChar := funext lowerChar_idem
  simp [List.map_map, h]

theorem strLower_idem (v : Val) : strLower (strLower v) = strLower v := by
  cases v <;> simp [strLower, lowerString_idem]

theorem colIdx_eq_none_iff (c : ColLabel) (l : List ColLabel) :
    colIdx c l = none ↔ c ∉ l := by
  induction l with
  | nil => simp [colIdx]
  | cons c' cs ih =>
    simp only [colIdx, List.mem_cons, not_or]
    by_cases h : c' = c
    · simp [h]
    · have h' : ¬ c = c' := fun he => h he.symm
      simp [h, h', Option.map_eq_none', ih]

theorem zipWith_map_self {α β γ : Type} (f : α → β → γ) (g : α → β) :
    ∀ l : List α, List.zipWith f l (l.map g) = l.map (fun a => f a (g a)) := by
  intro l
  induction l with
  | nil => rfl
  | cons a l ih => simp [ih]

theorem runSteps_append (gc gm : Gen) (p : Pipeline)
    (rec : Frame → Except (Err × Frame) Frame) (l₁ l₂ : List String) (fr : Frame) :
    runSteps gc gm p rec (l₁ ++ l₂) fr =
      (runSteps gc gm p rec l₁ fr).bind (runSteps gc gm p rec l₂) := by
  induction l₁ generalizing fr with
  | nil => rfl
  | cons s rest ih =>
    simp only [List.cons_append, runSteps]
    split
    · rfl
    · split
      · rfl
      · rfl
      · split
        · rfl
        · exact ih _

/-- C10: `transform()` with no built-in step names and no custom functions is
the identity on the held dataset: it returns the dataset unchanged and raises
no error. -/
theorem transform_empty_config_identity (gc gm : Gen) (fuel : Nat) (D : Frame) :
    DataTransformer.transform gc gm fuel { data_frame := D, func_strs := [], funcs := [] } =
      Except.ok D := rfl

/-- C3: on the 5-row log (3 rows `"FINISHED"` with non-empty SQL text, 2 rows
`"FAILED"`), `transform()` configured with the drop-failed-queries step
followed by the lowercase step returns exactly the 3 `"FINISHED"` rows, in
their original order, with the SQL text lowercased and every other cell
unchanged. -/
theorem transform_sample_run (gc gm : Gen) (fuel : Nat) :
    DataTransformer.transform gc gm fuel
      { data_frame := sampleLogs,
        func_strs := ["drop_failed_queries", "to_lower_queries"], funcs := [] } =
      Except.ok sampleLogsExpected := rfl

/-- C2 (defect witness): `select_training_columns` indexes the frame with the
single tuple label `(QUERY_COLUMN, CPU_TIME_LABEL, PEAK_MEMORY_LABEL)`, so on
every frame not carrying a column under that tuple label — in particular every
frame whose columns are the plain string labels the claim speaks of, with all
three training columns present — it raises `KeyError` instead of narrowing to
the three columns. -/
theorem select_training_columns_raises (fr : Frame)
    (h : ColLabel.t3 QUERY_COLUMN CPU_TIME_LABEL PEAK_MEMORY_LABEL ∉ fr.cols) :
    select_training_columns fr =
      Except.error (.keyError (.t3 QUERY_COLUMN CPU_TIME_LABEL PEAK_MEMORY_LABEL)) := by
  have hn := (colIdx_eq_none_iff (ColLabel.t3 QUERY_COLUMN CPU_TIME_LABEL PEAK_MEMORY_LABEL)
    fr.cols).mpr h
  simp [select_training_columns, hn]

theorem select_training_columns_raises_witness :
    (ColLabel.t3 QUERY_COLUMN CPU_TIME_LABEL PEAK_MEMORY_LABEL ∉
      [ColLabel.s QUERY_COLUMN, ColLabel.s CPU_TIME_LABEL, ColLabel.s PEAK_MEMORY_LABEL]) ∧
    select_training_columns
      { cols := [ColLabel.s QUERY_COLUMN, ColLabel.s CPU_TIME_LABEL, ColLabel.s PEAK_MEMORY_LABEL],
        rows := [[Val.str "select a", Val.str "low", Val.str "low"]] } =
      Except.error (.keyError (.t3 QUERY_COLUMN CPU_TIME_LABEL PEAK_MEMORY_LABEL)) :=
  ⟨by decide, select_training_columns_raises _ (by decide)⟩

/-- C4: `transform()` configured with only the drop-failed-queries step keeps
exactly the rows whose query-state cell equals `"FINISHED"` (columns and row
order untouched) when the query-state column is present, and returns the
dataset unchanged when it is absent; neither case is an error. -/
theorem transform_drop_failed_only (gc gm : Gen) (fuel : Nat) (D : Frame) :
    DataTransformer.transform gc gm fuel
      { data_frame := D, func_strs := ["drop_failed_queries"], funcs := [] } =
      Except.ok
        (match colIdx (ColLabel.s QUERY_STATE_COLUMN) D.cols with
         | none => D
         | some i =>
           { D with
             rows := D.rows.filter (fun r => decide (r.getD i Val.nan = Val.str "FINISHED")) }) := by
  rcases hc : colIdx (ColLabel.s QUERY_STATE_COLUMN) D.cols with _ | i <;>
    simp [DataTransformer.transform, transformFuel, runSteps, getattrP, truthyE, callAttr,
      runPlainMethod, drop_failed_queries, runFuncs, hc]

theorem getD_set_self (l : List Val) (i : Nat) (v d : Val) (h : i < l.length) :
    (l.set i v).getD i d = v := by
  simp [List.getD_eq_getElem?_getD, List.getElem?_set_self, h]

/-- C7: on a dataset carrying the query-text column, the lowercase step is
idempotent — running it on its own output changes nothing. -/
theorem to_lower_queries_idempotent (D : Frame)
    (h : ColLabel.s QUERY_COLUMN ∈ D.cols) :
    (to_lower_queries D).bind to_lower_queries = to_lower_queries D := by
  rcases hi : colIdx (ColLabel.s QUERY_COLUMN) D.cols with _ | i
  · exact absurd h ((colIdx_eq_none_iff _ _).mp hi)
  · have key : ∀ r : List Val,
        ((r.set i (strLower (r.getD i Val.nan))).set i
          (strLower ((r.set i (strLower (r.getD i Val.nan))).getD i Val.nan))) =
        r.set i (strLower (r.getD i Val.nan)) := by
      intro r
      by_cases hlen : i < r.length
      · rw [getD_set_self _ _ _ _ hlen, strLower_idem, List.set_set]
      · have hle : r.length ≤ i := Nat.le_of_not_lt hlen
        rw [List.set_eq_of_length_le hle, List.set_eq_of_length_le hle]
    simp only [to_lower_queries, hi, Except.bind]
    rw [List.map_map]
    exact congrArg Except.ok (congrArg _ (List.map_congr_left (fun r _ => key r)))

theorem to_lower_queries_idempotent_witness :
    ColLabel.s QUERY_COLUMN ∈ queryOnlyFrame.cols ∧
    (to_lower_queries queryOnlyFrame).bind to_lower_queries =
      to_lower_queries queryOnlyFrame :=
  ⟨by decide, to_lower_queries_idempotent queryOnlyFrame (by decide)⟩

theorem setCol_not_mem (fr : Frame) (c : ColLabel) (g : Gen) (h : c ∉ fr.cols) :
    setCol fr c (applyRows g fr) =
      { cols := fr.cols ++ [c],
        rows := fr.rows.map (fun r => r ++ [g (fr.cols.zip r)]) } := by
  unfold setCol applyRows
  rw [(colIdx_eq_none_iff _ _).mpr h, zipWith_map_self]

/-- C5: on a dataset carrying neither label column, create-labels appends
exactly the two new label columns (CPU time, then peak memory) at the end,
keeps the row count, and fills each new cell with the respective external
generator's single output for that full row (the second generator already sees
the row extended with the first label). -/
theorem create_labels_appends (gc gm : Gen) (D : Frame)
    (h1 : ColLabel.s CPU_TIME_LABEL ∉ D.cols)
    (h2 : ColLabel.s PEAK_MEMORY_LABEL ∉ D.cols) :
    (create_labels gc gm D).cols =
      D.cols ++ [ColLabel.s CPU_TIME_LABEL, ColLabel.s PEAK_MEMORY_LABEL] ∧
    (create_labels gc gm D).rows.length = D.rows.length ∧
    (create_labels gc gm D).rows = D.rows.map (fun r =>
      r ++ [gc (D.cols.zip r),
            gm ((D.cols ++ [ColLabel.s CPU_TIME_LABEL]).zip
                  (r ++ [gc (D.cols.zip r)]))]) := by
  have e1 : create_cpu_time_label gc D =
      { cols := D.cols ++ [ColLabel.s CPU_TIME_LABEL],
        rows := D.rows.map (fun r => r ++ [gc (D.cols.zip r)]) } :=
    setCol_not_mem D _ gc h1
  have h2' : ColLabel.s PEAK_MEMORY_LABEL ∉ D.cols ++ [ColLabel.s CPU_TIME_LABEL] := by
    simp only [List.mem_append, List.mem_singleton]
    rintro (hm | he)
    · exact h2 hm
    · simp [PEAK_MEMORY_LABEL, CPU_TIME_LABEL] at he
  have e2 := setCol_not_mem
    ({ cols := D.cols ++ [ColLabel.s CPU_TIME_LABEL],
       rows := D.rows.map (fun r => r ++ [gc (D.cols.zip r)]) } : Frame) _ gm h2'
  unfold create_labels create_peak_memory_label
  rw [e1, e2]
  refine ⟨by simp, by simp, ?_⟩
  simp only [List.map_map]
  exact List.map_congr_left (fun r _ => by simp)

theorem create_labels_appends_witness :
    ColLabel.s CPU_TIME_LABEL ∉ queryOnlyFrame.cols ∧
    ColLabel.s PEAK_MEMORY_LABEL ∉ queryOnlyFrame.cols ∧
    ((create_labels constGen constGen queryOnlyFrame).cols =
      queryOnlyFrame.cols ++ [ColLabel.s CPU_TIME_LABEL, ColLabel.s PEAK_MEMORY_LABEL] ∧
    (create_labels constGen constGen queryOnlyFrame).rows.length =
      queryOnlyFrame.rows.length ∧
    (create_labels constGen constGen queryOnlyFrame).rows =
      queryOnlyFrame.rows.map (fun r =>
        r ++ [constGen (queryOnlyFrame.cols.zip r),
              constGen ((queryOnlyFrame.cols ++ [ColLabel.s CPU_TIME_LABEL]).zip
                    (r ++ [constGen (queryOnlyFrame.cols.zip r)]))])) :=
  ⟨by decide, by decide, create_labels_appends constGen constGen queryOnlyFrame
    (by decide) (by decide)⟩

/-- C6: once every built-in step has succeeded (yielding `fr`), `transform()`
returns the custom-function fold of `fr` — the custom functions run strictly
after the built-in phase, in the order supplied, each one applied to the
previous result, and the final frame is returned. -/
theorem transform_custom_funcs_phase (gc gm : Gen) (fuel : Nat) (p : Pipeline)
    (fr : Frame)
    (h : stepsFrom gc gm p fuel p.func_strs p.data_frame = Except.ok fr) :
    DataTransformer.transform gc gm fuel p = Except.ok (runFuncs p.funcs fr) ∧
    ∀ (f : Frame → Frame) (fs : List (Frame → Frame)) (fr' : Frame),
      runFuncs (f :: fs) fr' = runFuncs fs (f fr') := by
  unfold stepsFrom at h
  refine ⟨?_, fun f fs fr' => rfl⟩
  unfold DataTransformer.transform
  simp only [transformFuel]
  rw [h]

theorem transform_custom_funcs_phase_witness :
    stepsFrom constGen constGen funcsPipeline 0 funcsPipeline.func_strs
      funcsPipeline.data_frame = Except.ok funcsPipelineMid ∧
    DataTransformer.transform constGen constGen 0 funcsPipeline =
      Except.ok (runFuncs funcsPipeline.funcs funcsPipelineMid) ∧
    ∀ (f : Frame → Frame) (fs : List (Frame → Frame)) (fr' : Frame),
      runFuncs (f :: fs) fr' = runFuncs fs (f fr') :=
  ⟨rfl,
   (transform_custom_funcs_phase constGen constGen 0 funcsPipeline funcsPipelineMid rfl).1,
   (transform_custom_funcs_phase constGen constGen 0 funcsPipeline funcsPipelineMid rfl).2⟩

/-- C1 (counterexample to the claim as stated): in the configuration
`["drop_failed_queries", "bogus"]` over a 2-row frame, the unresolvable name
`"bogus"` does abort the run with `DataTransformerException`, but only after
`drop_failed_queries` has already executed its effect: the held frame carried
by the failure is the filtered frame, not the input frame. -/
theorem transform_unknown_step_counterexample :
    DataTransformer.transform constGen constGen 0
      { data_frame := noQueryTextFrame,
        func_strs := ["drop_failed_queries", "bogus"], funcs := [] } =
      Except.error (.dataTransformerException "bogus", noQueryTextFinished) ∧
    noQueryTextFinished ≠ noQueryTextFrame := ⟨rfl, by decide⟩

/-- C1 (amended): whenever the configured step names split as
`pre ++ bad :: rest` with every step of `pre` succeeding and `bad` resolving
to no attribute, `transform()` aborts with `DataTransformerException`
identifying `bad`; the failing step contributes no effect and no later
configured step (built-in or custom) runs — the held frame at the failure is
exactly the result of `pre`, independent of `bad`'s would-be effect and of
`rest`. -/
theorem transform_unknown_step_error (gc gm : Gen) (fuel : Nat) (p : Pipeline)
    (pre rest : List String) (bad : String) (frP : Frame)
    (hsplit : p.func_strs = pre ++ bad :: rest)
    (hbad : getattrP bad = none)
    (hpre : stepsFrom gc gm p fuel pre p.data_frame = Except.ok frP) :
    DataTransformer.transform gc gm fuel p =
      Except.error (.dataTransformerException bad, frP) := by
  unfold stepsFrom at hpre
  unfold DataTransformer.transform
  simp only [transformFuel]
  rw [hsplit, runSteps_append, hpre]
  show (match runSteps gc gm p (transformFuel gc gm p fuel) (bad :: rest) frP with
        | .error ef => Except.error ef
        | .ok fr' => Except.ok (runFuncs p.funcs fr')) = _
  simp only [runSteps, hbad]

theorem transform_unknown_step_error_witness :
    bogusPipeline.func_strs = ([] : List String) ++ "bogus" :: [] ∧
    getattrP "bogus" = none ∧
    stepsFrom constGen constGen bogusPipeline 0 []
      bogusPipeline.data_frame = Except.ok noQueryTextFrame ∧
    DataTransformer.transform constGen constGen 0 bogusPipeline =
      Except.error (.dataTransformerException "bogus", noQueryTextFrame) :=
  ⟨rfl, rfl, rfl,
   transform_unknown_step_error constGen constGen 0 bogusPipeline [] [] "bogus"
     noQueryTextFrame rfl rfl rfl⟩

/-- C8: when built-in step `sN` fails (any step other than a nested
`transform` re-entry), there is no rollback: the held frame carried by the
failure is exactly the frame produced by the preceding steps `pre` (all their
effects retained), and neither `sN` nor any later step contributes an
effect — `transform()` propagates the same error with that same frame. -/
theorem transform_no_rollback (gc gm : Gen) (fuel : Nat) (p : Pipeline)
    (pre rest : List String) (sN : String) (frN1 frE : Frame) (e : Err)
    (hsplit : p.func_strs = pre ++ sN :: rest)
    (hpre : stepsFrom gc gm p fuel pre p.data_frame = Except.ok frN1)
    (hnt : getattrP sN ≠ some Attr.transformMethod)
    (hfail : stepsFrom gc gm p fuel [sN] frN1 = Except.error (e, frE)) :
    frE = frN1 ∧
    DataTransformer.transform gc gm fuel p = Except.error (e, frN1) := by
  unfold stepsFrom at hpre hfail
  have hstep :
      runSteps gc gm p (transformFuel gc gm p fuel) [sN] frN1 =
        Except.error (e, frN1) ∧ frE = frN1 := by
    rcases hg : getattrP sN with _ | a
    · have hcomp : runSteps gc gm p (transformFuel gc gm p fuel) [sN] frN1 =
          Except.error (.dataTransformerException sN, frN1) := by
        simp [runSteps, hg]
      rw [hcomp] at hfail
      rcases hfail with ⟨rfl, rfl⟩
      exact ⟨hcomp, rfl⟩
    · cases a with
      | plainMethod m =>
        rcases hr : runPlainMethod gc gm m frN1 with e' | fr2
        · have hcomp : runSteps gc gm p (transformFuel gc gm p fuel) [sN] frN1 =
              Except.error (e', frN1) := by
            simp [runSteps, hg, truthyE, callAttr, hr]
          rw [hcomp] at hfail
          rcases hfail with ⟨rfl, rfl⟩
          exact ⟨hcomp, rfl⟩
        · have hcomp : runSteps gc gm p (transformFuel gc gm p fuel) [sN] frN1 =
              Except.ok fr2 := by
            simp [runSteps, hg, truthyE, callAttr, hr]
          rw [hcomp] at hfail
          exact absurd hfail (by simp)
      | transformMethod => exact absurd hg hnt
      | dataFrameAttr =>
        have hcomp : runSteps gc gm p (transformFuel gc gm p fuel) [sN] frN1 =
            Except.error (.valueError, frN1) := by
          simp [runSteps, hg, truthyE]
        rw [hcomp] at hfail
        rcases hfail with ⟨rfl, rfl⟩
        exact ⟨hcomp, rfl⟩
      | funcStrsAttr =>
        cases hb : p.func_strs.isEmpty
        · have hcomp : runSteps gc gm p (transformFuel gc gm p fuel) [sN] frN1 =
              Except.error (.typeError, frN1) := by
            simp [runSteps, hg, truthyE, callAttr, hb]
          rw [hcomp] at hfail
          rcases hfail with ⟨rfl, rfl⟩
          exact ⟨hcomp, rfl⟩
        · have hcomp : runSteps gc gm p (transformFuel gc gm p fuel) [sN] frN1 =
              Except.error (.dataTransformerException sN, frN1) := by
            simp [runSteps, hg, truthyE, callAttr, hb]
          rw [hcomp] at hfail
          rcases hfail with ⟨rfl, rfl⟩
          exact ⟨hcomp, rfl⟩
      | funcsAttr =>
        cases hb : p.funcs.isEmpty
        · have hcomp : runSteps gc gm p (transformFuel gc gm p fuel) [sN] frN1 =
              Except.error (.typeError, frN1) := by
            simp [runSteps, hg, truthyE, callAttr, hb]
          rw [hcomp] at hfail
          rcases hfail with ⟨rfl, rfl⟩
          exact ⟨hcomp, rfl⟩
        · have hcomp : runSteps gc gm p (transformFuel gc gm p fuel) [sN] frN1 =
              Except.error (.dataTransformerException sN, frN1) := by
            simp [runSteps, hg, truthyE, callAttr, hb]
          rw [hcomp] at hfail
          rcases hfail with ⟨rfl, rfl⟩
          exact ⟨hcomp, rfl⟩
  refine ⟨hstep.2, ?_⟩
  unfold DataTransformer.transform
  simp only [transformFuel]
  rw [hsplit, runSteps_append, hpre]
  show (match runSteps gc gm p (transformFuel gc gm p fuel) (sN :: rest) frN1 with
        | .error ef => Except.error ef
        | .ok fr' => Except.ok (runFuncs p.funcs fr')) = _
  rw [show (sN :: rest) = [sN] ++ rest from rfl, runSteps_append, hstep.1]
  rfl

theorem transform_no_rollback_witness :
    noRollbackPipeline.func_strs = ["drop_failed_queries"] ++ "to_lower_queries" :: [] ∧
    stepsFrom constGen constGen noRollbackPipeline 0 ["drop_failed_queries"]
      noRollbackPipeline.data_frame = Except.ok noQueryTextFinished ∧
    getattrP "to_lower_queries" ≠ some Attr.transformMethod ∧
    stepsFrom constGen constGen noRollbackPipeline 0 ["to_lower_queries"]
      noQueryTextFinished =
      Except.error (.keyError (.s QUERY_COLUMN), noQueryTextFinished) ∧
    (noQueryTextFinished = noQueryTextFinished ∧
     DataTransformer.transform constGen constGen 0 noRollbackPipeline =
       Except.error (.keyError (.s QUERY_COLUMN), noQueryTextFinished)) :=
  ⟨rfl, rfl, by decide, rfl,
   transform_no_rollback constGen constGen 0 noRollbackPipeline
     ["drop_failed_queries"] [] "to_lower_queries" noQueryTextFinished
     noQueryTextFinished (.keyError (.s QUERY_COLUMN)) rfl rfl (by decide) rfl⟩

theorem runPlainMethod_no_config (gc gm : Gen) (m : Method) (fr : Frame)
    (e : Err) (s : String) (h : runPlainMethod gc gm m fr = Except.error e) :
    e ≠ Err.dataTransformerException s := by
  cases m
  case create_labels => simp [runPlainMethod] at h
  case create_cpu_time_label => simp [runPlainMethod] at h
  case create_peak_memory_label => simp [runPlainMethod] at h
  case drop_failed_queries => simp [runPlainMethod] at h
  case to_lower_queries =>
    simp only [runPlainMethod] at h
    unfold to_lower_queries at h
    rcases hc : colIdx (ColLabel.s QUERY_COLUMN) fr.cols with _ | i <;> rw [hc] at h
    · injection h with h'
      subst h'
      simp
    · exact absurd h (by simp)
  case select_training_columns =>
    simp only [runPlainMethod, select_training_columns] at h
    rcases hc : colIdx (ColLabel.t3 QUERY_COLUMN CPU_TIME_LABEL PEAK_MEMORY_LABEL)
        fr.cols with _ | i <;> rw [hc] at h
    · injection h with h'
      subst h'
      simp
    · exact absurd h (by simp)

theorem runSteps_config_unresolvable (gc gm : Gen) (p : Pipeline)
    (rec : Frame → Except (Err × Frame) Frame)
    (hrec : ∀ fr s' fr', rec fr = Except.error (.dataTransformerException s', fr') →
      unresolvable p s') :
    ∀ (l : List String) (fr : Frame) (s' : String) (fr' : Frame),
      runSteps gc gm p rec l fr = Except.error (.dataTransformerException s', fr') →
      unresolvable p s' := by
  intro l
  induction l with
  | nil =>
    intro fr s' fr' hh
    simp [runSteps] at hh
  | cons s rest ih =>
    intro fr s' fr' hh
    rcases hg : getattrP s with _ | a
    · have hcomp : runSteps gc gm p rec (s :: rest) fr =
          Except.error (.dataTransformerException s, fr) := by simp [runSteps, hg]
      rw [hcomp] at hh
      rcases hh with ⟨rfl, rfl⟩
      exact Or.inl hg
    · cases a with
      | plainMethod m =>
        rcases hr : runPlainMethod gc gm m fr with e' | fr2
        · have hcomp : runSteps gc gm p rec (s :: rest) fr = Except.error (e', fr) := by
            simp [runSteps, hg, truthyE, callAttr, hr]
          rw [hcomp] at hh
          rcases hh with ⟨rfl, rfl⟩
          exact absurd rfl (runPlainMethod_no_config gc gm m fr _ s' hr)
        · have hcomp : runSteps gc gm p rec (s :: rest) fr =
              runSteps gc gm p rec rest fr2 := by
            simp [runSteps, hg, truthyE, callAttr, hr]
          rw [hcomp] at hh
          exact ih fr2 s' fr' hh
      | transformMethod =>
        rcases hr : rec fr with ef | fr2
        · have hcomp : runSteps gc gm p rec (s :: rest) fr = Except.error ef := by
            simp [runSteps, hg, truthyE, callAttr, hr]
          rw [hcomp] at hh
          rw [hh] at hr
          exact hrec fr s' fr' hr
        · have hcomp : runSteps gc gm p rec (s :: rest) fr =
              runSteps gc gm p rec rest fr2 := by
            simp [runSteps, hg, truthyE, callAttr, hr]
          rw [hcomp] at hh
          exact ih fr2 s' fr' hh
      | dataFrameAttr =>
        have hcomp : runSteps gc gm p rec (s :: rest) fr =
            Except.error (.valueError, fr) := by simp [runSteps, hg, truthyE]
        rw [hcomp] at hh
        exact absurd hh (by simp)
      | funcStrsAttr =>
        cases hb : p.func_strs.isEmpty
        · have hcomp : runSteps gc gm p rec (s :: rest) fr =
              Except.error (.typeError, fr) := by
            simp [runSteps, hg, truthyE, callAttr, hb]
          rw [hcomp] at hh
          exact absurd hh (by simp)
        · have hcomp : runSteps gc gm p rec (s :: rest) fr =
              Except.error (.dataTransformerException s, fr) := by
            simp [runSteps, hg, truthyE, callAttr, hb]
          rw [hcomp] at hh
          rcases hh with ⟨rfl, rfl⟩
          exact Or.inr ⟨.funcStrsAttr, hg, by simp [truthyE, hb]⟩
      | funcsAttr =>
        cases hb : p.funcs.isEmpty
        · have hcomp : runSteps gc gm p rec (s :: rest) fr =
              Except.error (.typeError, fr) := by
            simp [runSteps, hg, truthyE, callAttr, hb]
          rw [hcomp] at hh
          exact absurd hh (by simp)
        · have hcomp : runSteps gc gm p rec (s :: rest) fr =
              Except.error (.dataTransformerException s, fr) := by
            simp [runSteps, hg, truthyE, callAttr, hb]
          rw [hcomp] at hh
          rcases hh with ⟨rfl, rfl⟩
          exact Or.inr ⟨.funcsAttr, hg, by simp [truthyE, hb]⟩

theorem transformFuel_config_unresolvable (gc gm : Gen) (p : Pipeline) :
    ∀ (fuel : Nat) (fr : Frame) (s' : String) (fr' : Frame),
      transformFuel gc gm p fuel fr = Except.error (.dataTransformerException s', fr') →
      unresolvable p s' := by
  intro fuel
  induction fuel with
  | zero =>
    intro fr s' fr' hh
    simp [transformFuel] at hh
  | succ n ih =>
    intro fr s' fr' hh
    simp only [transformFuel] at hh
    rcases hr : runSteps gc gm p (transformFuel gc gm p n) p.func_strs fr with ef | fr2
    · rw [hr] at hh
      simp only at hh
      rw [hh] at hr
      exact runSteps_config_unresolvable gc gm p _ (fun f0 s0 f0' h0 => ih f0 s0 f0' h0)
        p.func_strs fr s' fr' hr
    · rw [hr] at hh
      simp at hh

/-- C9: step-name resolution is `getattr` plus a truthiness test — the
dispatcher raises the configuration error for a name exactly when the pipeline
has no such attribute or the attribute is falsy; in particular `"transform"`
itself resolves to the (truthy) bound method, so it is invoked as a step and
is never rejected with the configuration error. -/
theorem step_name_resolution_semantics (gc gm : Gen) (p : Pipeline) (fuel : Nat)
    (s : String) (fr : Frame) :
    (stepsFrom gc gm p fuel [s] fr =
        Except.error (.dataTransformerException s, fr) ↔ unresolvable p s) ∧
    getattrP "transform" = some Attr.transformMethod ∧
    ∀ fr', stepsFrom gc gm p fuel ["transform"] fr ≠
      Except.error (.dataTransformerException "transform", fr') := by
  refine ⟨⟨?_, ?_⟩, rfl, ?_⟩
  · intro hh
    exact runSteps_config_unresolvable gc gm p _
      (fun f0 s0 f0' h0 => transformFuel_config_unresolvable gc gm p fuel f0 s0 f0' h0)
      [s] fr s fr hh
  · intro hu
    rcases hu with hn | ⟨a, hg, ht⟩
    · simp [stepsFrom, runSteps, hn]
    · simp [stepsFrom, runSteps, hg, ht]
  · intro fr' hh
    have hu := runSteps_config_unresolvable gc gm p _
      (fun f0 s0 f0' h0 => transformFuel_config_unresolvable gc gm p fuel f0 s0 f0' h0)
      ["transform"] fr "transform" fr' hh
    rcases hu with hn | ⟨a, hg, ht⟩
    · exact absurd hn (by simp [getattrP])
    · have ha : a = Attr.transformMethod := by
        have hg' : getattrP "transform" = some Attr.transformMethod := rfl
        rw [hg'] at hg
        exact (Option.some.inj hg).symm
      rw [ha] at ht
      exact absurd ht (by simp [truthyE])
